import Mathlib

/-!
Verification of the request/response marshaling core of the Photo-Edit-N
repository (src/services/geminiService.ts): the response classifier
`handleApiResponse`, the request encoder `fileToPart`, and the multi-output
logo path of `generateLogos`, shallowly embedded in Lean.

JavaScript strings are modelled as Lean `String`; optional fields
(`field?:` in TypeScript, reached through `?.` optional chaining) as
`Option`; JS truthiness of a string is the test for being non-empty, and
truthiness of an object is its presence.  Each `throw new Error(msg)` site
of the classifier becomes one constructor of `ApiResult` carrying the
exact message the source builds.
-/

namespace Gemini

/-- Inline binary payload of a response content part: a media-type string
and a base64 text payload, as in the inlineData objects of the service
response and of the part built by fileToPart. -/
structure InlineData where
  mimeType : String
  data : String
  deriving DecidableEq, Repr

/-- One content part of a candidate; only the optional inlineData field is
inspected by the classifier (part.inlineData, line 40 of
geminiService.ts). -/
structure Part where
  inlineData : Option InlineData
  deriving DecidableEq, Repr

/-- Candidate content: the optional list of parts. -/
structure Content where
  parts : Option (List Part)
  deriving DecidableEq, Repr

/-- One response candidate: optional content and optional finishReason
string. -/
structure Candidate where
  content : Option Content
  finishReason : Option String
  deriving DecidableEq, Repr

/-- The promptFeedback object: optional blockReason and
blockReasonMessage strings. -/
structure PromptFeedback where
  blockReason : Option String
  blockReasonMessage : Option String
  deriving DecidableEq, Repr

/-- The service response as consumed by handleApiResponse: optional
promptFeedback, optional candidate list, and the optional text accessor
(the SDK text getter is treated as an opaque optional string field,
matching its sole use response.text at line 56). -/
structure GenerateContentResponse where
  promptFeedback : Option PromptFeedback
  candidates : Option (List Candidate)
  text : Option String
  deriving DecidableEq, Repr

/-- Result of handleApiResponse: one constructor for the returned data URL
and one per throw site, carrying the message the source constructs. -/
inductive ApiResult where
  | success (dataUrl : String)
  | blocked (msg : String)
  | stoppedEarly (msg : String)
  | emptyResult (msg : String)
  deriving DecidableEq, Repr

/-- Whether a result is the blocked failure. -/
def ApiResult.isBlocked : ApiResult → Bool
  | .blocked _ => true
  | _ => false

/-- Whether a result is the stopped-early failure. -/
def ApiResult.isStoppedEarly : ApiResult → Bool
  | .stoppedEarly _ => true
  | _ => false

/-- Whether a result is the success case. -/
def ApiResult.isSuccess : ApiResult → Bool
  | .success _ => true
  | _ => false

/-- The chain response.promptFeedback?.blockReason (line 32). -/
def blockReasonOf (r : GenerateContentResponse) : Option String :=
  r.promptFeedback.bind PromptFeedback.blockReason

/-- The chain response.candidates?.[0]?.finishReason (line 49). -/
def finishReasonOf (r : GenerateContentResponse) : Option String :=
  (r.candidates.bind List.head?).bind Candidate.finishReason

/-- The scan of one candidate for its first part with inline data:
c.content?.parts?.find(part => part.inlineData). -/
def candidateImagePart (c : Candidate) : Option Part :=
  (c.content.bind Content.parts).bind (List.find? fun p => p.inlineData.isSome)

/-- The chain response.candidates?.[0]?.content?.parts?.find(part =>
part.inlineData) (line 40): only the first candidate is scanned. -/
def imagePartFromResponse (r : GenerateContentResponse) : Option Part :=
  (((r.candidates.bind List.head?).bind Candidate.content).bind Content.parts).bind
    (List.find? fun p => p.inlineData.isSome)

/-- JS String.prototype.trim as called on line 56: strip leading and
trailing whitespace, modelled at the character level with structural
recursion (the whitespace class is the common space, tab, carriage
return and newline). -/
def jsTrim (s : String) : String :=
  ((s.toList.dropWhile Char.isWhitespace).reverse.dropWhile Char.isWhitespace).reverse.asString

/-- Fixed tail of the empty-result message used when the response carries
no usable trimmed text (line 60). -/
def emptyFallbackText : String :=
  "This can happen due to safety filters or if the request is too complex. Please try rephrasing your prompt to be more direct."

/-- Step 4 of the classifier (lines 56-63): the empty-result message,
built from the trimmed response text, JS-truthiness deciding between
quoting the text and the fixed fallback tail. -/
def emptyMessageOf (r : GenerateContentResponse) (context : String) : String :=
  "The AI model did not return an image for the " ++ context ++ ". " ++
    (match r.text.map jsTrim with
     | some t => if t = "" then emptyFallbackText
        else "The model responded with text: \"" ++ t ++ "\""
     | none => emptyFallbackText)

/-- The empty-result failure thrown at line 63. -/
def emptyResultOf (r : GenerateContentResponse) (context : String) : ApiResult :=
  .emptyResult (emptyMessageOf r context)

/-- Step 3 of the classifier (lines 48-54): with no image part found,
a JS-truthy finishReason different from the sentinel STOP throws the
stopped-early error; otherwise fall through to the empty result. -/
def handleNoImage (r : GenerateContentResponse) (context : String) : ApiResult :=
  match finishReasonOf r with
  | some fr =>
      if fr ≠ "" ∧ fr ≠ "STOP" then
        .stoppedEarly ("Image generation for " ++ context ++
          " stopped unexpectedly. Reason: " ++ fr ++ ". This often relates to safety settings.")
      else emptyResultOf r context
  | none => emptyResultOf r context

/-- Step 2 of the classifier (lines 39-46): if the first candidate has a
part with inline data, return its data URL. -/
def handleNoBlock (r : GenerateContentResponse) (context : String) : ApiResult :=
  match (imagePartFromResponse r).bind Part.inlineData with
  | some idata => .success ("data:" ++ idata.mimeType ++ ";base64," ++ idata.data)
  | none => handleNoImage r context

/-- The classifier handleApiResponse (lines 27-64).  Step 1: a JS-truthy
response.promptFeedback?.blockReason (present and non-empty) throws the
blocked error, whose message appends blockReasonMessage with an
empty-string default. -/
def handleApiResponse (r : GenerateContentResponse) (context : String) : ApiResult :=
  match r.promptFeedback with
  | some pf =>
      match pf.blockReason with
      | some br =>
          if br = "" then handleNoBlock r context
          else .blocked ("Request was blocked. Reason: " ++ br ++ ". " ++
            pf.blockReasonMessage.getD "")
      | none => handleNoBlock r context
  | none => handleNoBlock r context

/-- The needle occurs as a contiguous substring of the haystack. -/
def strContains (needle hay : String) : Prop :=
  ∃ a b : String, hay = a ++ needle ++ b

/-- JS String.prototype.split on the comma separator, at the character
level: dataUrl.split(',') of line 17. -/
def splitComma : List Char → List (List Char)
  | [] => [[]]
  | c :: rest =>
      if c = ',' then [] :: splitComma rest
      else
        match splitComma rest with
        | [] => [[c]]
        | s :: ss => (c :: s) :: ss

/-- Characters up to the first semicolon, or none when no semicolon
follows: the lazy body of the regex of line 19 after its colon. -/
def takeUntilSemi : List Char → Option (List Char)
  | [] => none
  | c :: rest =>
      if c = ';' then some []
      else (takeUntilSemi rest).map (fun l => c :: l)

/-- The capture of the first match of the regex on line 19 (a colon, a
lazy run, a semicolon), scanning left to right.  The dot of the regex is
modelled as matching any character (the source never feeds it strings
with line terminators, where JS dot would differ). -/
def mimeCapture : List Char → Option (List Char)
  | [] => none
  | c :: rest =>
      if c = ':' then
        match takeUntilSemi rest with
        | some cap => some cap
        | none => mimeCapture rest
      else mimeCapture rest

/-- The pure tail of fileToPart (lines 17-24): split the data URL on
commas, require at least two segments, extract the regex capture from the
first segment requiring it non-empty (mimeMatch[1] JS-truthy), and build
the part from the capture and the second segment. -/
def fileToPartCore (dataUrl : String) : Except String Part :=
  let arr := splitComma dataUrl.toList
  if arr.length < 2 then .error "Invalid data URL"
  else
    match mimeCapture (arr.getD 0 []) with
    | none => .error "Could not parse MIME type from data URL"
    | some cap =>
        if cap = [] then .error "Could not parse MIME type from data URL"
        else .ok { inlineData := some { mimeType := cap.asString, data := (arr.getD 1 []).asString } }

/-- Modelled from the spec: the browser FileReader.readAsDataURL step of
fileToPart (lines 10-15), outside this repository, which per section 4.1
of the spec reads the asset bytes and encodes them as a base64 data URL
with the fixed delimiter pattern data:mediatype;base64,payload. -/
def readAsDataUrl (mimeType payload : String) : String :=
  "data:" ++ mimeType ++ ";base64," ++ payload

/-- One generated image of the Imagen response: the accessed path
img.image.imageBytes (line 281), innermost field. -/
structure ImagenImage where
  imageBytes : String
  deriving DecidableEq, Repr

/-- One element of response.generatedImages. -/
structure GeneratedImage where
  image : ImagenImage
  deriving DecidableEq, Repr

/-- The generateImages response as consumed by generateLogos: the
optional generatedImages array. -/
structure GenerateImagesResponse where
  generatedImages : Option (List GeneratedImage)
  deriving DecidableEq, Repr

/-- Fixed message generateLogos throws when the generated-images array is
absent or empty (line 277). -/
def logosEmptyMessage : String :=
  "The AI model did not return any images. This could be due to safety filters or a complex prompt. Please try again with different keywords."

/-- The response-handling tail of generateLogos (lines 276-281): throw
the fixed message if generatedImages is absent or empty, else map each
generated image to a png data URL in order. -/
def generateLogosResult (r : GenerateImagesResponse) : Except String (List String) :=
  match r.generatedImages with
  | none => .error logosEmptyMessage
  | some imgs =>
      if imgs.length = 0 then .error logosEmptyMessage
      else .ok (imgs.map fun img => "data:image/png;base64," ++ img.image.imageBytes)

/-! Helper lemmas shared by the claim theorems. -/

theorem strToList_append (s t : String) : (s ++ t).toList = s.toList ++ t.toList := rfl

theorem strAppend_assoc (a b c : String) : a ++ b ++ c = a ++ (b ++ c) := by
  apply String.toList_inj.mp
  simp [String.toList, List.append_assoc]

/-- Splitting a comma-free prefix followed by a comma peels off that
prefix as the first segment. -/
theorem splitComma_append (a b : List Char) (ha : ',' ∉ a) :
    splitComma (a ++ ',' :: b) = a :: splitComma b := by
  induction a with
  | nil => simp [splitComma]
  | cons c cs ih =>
      have h1 : ¬ c = ',' := fun hc => ha (by simp [hc])
      have h2 : ',' ∉ cs := fun hm => ha (by simp [hm])
      simp only [List.cons_append, splitComma, if_neg h1, List.append_eq, ih h2]

/-- A comma-free list splits into itself alone. -/
theorem splitComma_no_comma (l : List Char) (h : ',' ∉ l) : splitComma l = [l] := by
  induction l with
  | nil => rfl
  | cons c cs ih =>
      have h1 : ¬ c = ',' := fun hc => h (by simp [hc])
      have h2 : ',' ∉ cs := fun hm => h (by simp [hm])
      simp only [splitComma, if_neg h1, ih h2]

/-- Taking up to the first semicolon of a semicolon-free prefix followed
by a semicolon yields exactly that prefix. -/
theorem takeUntilSemi_append (a b : List Char) (ha : ';' ∉ a) :
    takeUntilSemi (a ++ ';' :: b) = some a := by
  induction a with
  | nil => rfl
  | cons c cs ih =>
      have h1 : ¬ c = ';' := fun hc => ha (by simp [hc])
      have h2 : ';' ∉ cs := fun hm => ha (by simp [hm])
      simp only [List.cons_append, takeUntilSemi, if_neg h1, List.append_eq, ih h2, Option.map_some']

/-- The regex capture after a colon-free prefix: the first colon is found
and the capture is whatever the lazy scan takes before a semicolon. -/
theorem mimeCapture_append (x y cap : List Char)
    (hx : ':' ∉ x) (hy : takeUntilSemi y = some cap) :
    mimeCapture (x ++ ':' :: y) = some cap := by
  induction x with
  | nil => simp [mimeCapture, hy]
  | cons c cs ih =>
      have h1 : ¬ c = ':' := fun hc => hx (by simp [hc])
      have h2 : ':' ∉ cs := fun hm => hx (by simp [hm])
      simp only [List.cons_append, mimeCapture, if_neg h1]
      exact ih h2

/-- The fewer-than-two-segments branch of fileToPart. -/
theorem fileToPartCore_short (s : String) (h : (splitComma s.toList).length < 2) :
    fileToPartCore s = .error "Invalid data URL" := by
  simp only [fileToPartCore]
  rw [if_pos h]

/-- The missing-or-empty media-type-capture branch of fileToPart. -/
theorem fileToPartCore_noMime (s : String) (h : 2 ≤ (splitComma s.toList).length)
    (hm : mimeCapture ((splitComma s.toList).getD 0 []) = none ∨
      mimeCapture ((splitComma s.toList).getD 0 []) = some []) :
    fileToPartCore s = .error "Could not parse MIME type from data URL" := by
  simp only [fileToPartCore]
  rw [if_neg (by omega : ¬ (splitComma s.toList).length < 2)]
  rcases hm with hm | hm
  · rw [hm]
  · rw [hm]
    rfl

/-- The successful branch of fileToPart. -/
theorem fileToPartCore_ok (s : String) (cap : List Char)
    (h : 2 ≤ (splitComma s.toList).length)
    (hm : mimeCapture ((splitComma s.toList).getD 0 []) = some cap) (hne : cap ≠ []) :
    fileToPartCore s = .ok ⟨some ⟨cap.asString, ((splitComma s.toList).getD 1 []).asString⟩⟩ := by
  simp only [fileToPartCore]
  rw [if_neg (by omega : ¬ (splitComma s.toList).length < 2), hm]
  exact if_neg hne

/-- With a falsy blockReason chain (absent or the empty string) the
classifier proceeds to the post-block steps. -/
theorem handleApiResponse_eq_noBlock (r : GenerateContentResponse) (ctx : String)
    (hb : blockReasonOf r = none ∨ blockReasonOf r = some "") :
    handleApiResponse r ctx = handleNoBlock r ctx := by
  obtain ⟨pfb, cs, t⟩ := r
  cases pfb with
  | none => rfl
  | some pf =>
    obtain ⟨obr, obm⟩ := pf
    cases obr with
    | none => rfl
    | some br =>
      rcases hb with h | h <;> simp [blockReasonOf] at h
      simp [handleApiResponse, h]

/-- The post-block steps never produce the blocked failure. -/
theorem handleNoBlock_not_blocked (r : GenerateContentResponse) (ctx : String) :
    (handleNoBlock r ctx).isBlocked = false := by
  unfold handleNoBlock
  split
  · rfl
  · unfold handleNoImage
    split
    · split
      · rfl
      · simp [emptyResultOf, ApiResult.isBlocked]
    · simp [emptyResultOf, ApiResult.isBlocked]

/-- The post-block steps read only the candidates and text fields. -/
theorem handleNoBlock_congr (pfb pfb' : Option PromptFeedback) (cs : Option (List Candidate))
    (t : Option String) (ctx : String) :
    handleNoBlock ⟨pfb, cs, t⟩ ctx = handleNoBlock ⟨pfb', cs, t⟩ ctx := by
  simp [handleNoBlock, handleNoImage, emptyResultOf, emptyMessageOf, imagePartFromResponse,
    finishReasonOf]

/-- Claim C1, counterexample: the claim quantifies over every non-null
block reason, but a present-yet-empty blockReason is JS-falsy, so the
classifier does not resolve to the blocked failure there. -/
theorem claim1_counterexample :
    blockReasonOf ⟨some ⟨some "", none⟩, none, none⟩ ≠ none ∧
    (handleApiResponse ⟨some ⟨some "", none⟩, none, none⟩ "edit").isBlocked = false := by
  decide

/-- Claim C1 (amended): for every response whose promptFeedback carries a
non-null, non-empty block reason, the classifier resolves to the blocked
failure, whose message contains the block reason string, regardless of
any candidate or image content, the block check coming first. -/
theorem claim1_blocked (r : GenerateContentResponse) (pf : PromptFeedback) (br ctx : String)
    (hpf : r.promptFeedback = some pf) (hbr : pf.blockReason = some br) (hne : br ≠ "") :
    ∃ msg, handleApiResponse r ctx = .blocked msg ∧ strContains br msg := by
  refine ⟨"Request was blocked. Reason: " ++ br ++ ". " ++ pf.blockReasonMessage.getD "", ?_, ?_⟩
  · obtain ⟨pfb, cs, t⟩ := r
    simp only at hpf
    subst hpf
    simp [handleApiResponse, hbr, hne]
  · exact ⟨"Request was blocked. Reason: ", ". " ++ pf.blockReasonMessage.getD "",
      by simp [strAppend_assoc]⟩

/-- Witness for claim1_blocked: Scenario A, blockReason SAFETY with an
image part present. -/
theorem claim1_blocked_witness :
    ∃ msg, handleApiResponse
      ⟨some ⟨some "SAFETY", none⟩,
       some [⟨some ⟨some [⟨some ⟨"image/png", "AAA"⟩⟩]⟩, some "STOP"⟩], none⟩ "edit" =
        .blocked msg ∧ strContains "SAFETY" msg :=
  claim1_blocked _ _ "SAFETY" "edit" rfl rfl (by decide)

/-- Claim C9: a response whose blockReason is present but empty is not
classified as blocked; classification proceeds exactly as if no
promptFeedback were reported. -/
theorem claim9_empty_blockReason (r : GenerateContentResponse) (ctx : String)
    (pf : PromptFeedback) (hpf : r.promptFeedback = some pf) (hbr : pf.blockReason = some "") :
    handleApiResponse r ctx =
      handleApiResponse { promptFeedback := none, candidates := r.candidates, text := r.text } ctx ∧
    (handleApiResponse r ctx).isBlocked = false := by
  have h1 : handleApiResponse r ctx = handleNoBlock r ctx :=
    handleApiResponse_eq_noBlock r ctx (Or.inr (by simp [blockReasonOf, hpf, hbr]))
  constructor
  · rw [h1]
    obtain ⟨pfb, cs, t⟩ := r
    exact handleNoBlock_congr _ _ _ _ _
  · rw [h1]
    exact handleNoBlock_not_blocked r ctx

/-- Witness for claim9_empty_blockReason: an empty block reason next to a
valid image part still yields the success data URL. -/
theorem claim9_witness :
    handleApiResponse
      ⟨some ⟨some "", some "why"⟩,
       some [⟨some ⟨some [⟨some ⟨"image/png", "AAA"⟩⟩]⟩, none⟩], none⟩ "edit" =
    handleApiResponse
      ⟨none, some [⟨some ⟨some [⟨some ⟨"image/png", "AAA"⟩⟩]⟩, none⟩], none⟩ "edit" ∧
    (handleApiResponse
      ⟨some ⟨some "", some "why"⟩,
       some [⟨some ⟨some [⟨some ⟨"image/png", "AAA"⟩⟩]⟩, none⟩], none⟩ "edit").isBlocked = false :=
  claim9_empty_blockReason _ "edit" _ rfl rfl

/-- Claim C2: with a falsy block reason, if the first candidate's parts
contain at least one part with inline data, the classifier returns the
success data URL rebuilt from the media type and payload of the first
such part, whatever the finish reason. -/
theorem claim2_success (r : GenerateContentResponse) (ctx : String)
    (c : Candidate) (cs : List Candidate) (co : Content) (parts : List Part) (p : Part)
    (hb : blockReasonOf r = none ∨ blockReasonOf r = some "")
    (hc : r.candidates = some (c :: cs)) (hco : c.content = some co)
    (hparts : co.parts = some parts) (hp : p ∈ parts) (hpi : p.inlineData.isSome) :
    ∃ q idata, parts.find? (fun x => x.inlineData.isSome) = some q ∧
      q.inlineData = some idata ∧
      handleApiResponse r ctx = .success ("data:" ++ idata.mimeType ++ ";base64," ++ idata.data) := by
  have hfind : (parts.find? (fun x => x.inlineData.isSome)).isSome :=
    List.find?_isSome.mpr ⟨p, hp, hpi⟩
  obtain ⟨q, hq⟩ := Option.isSome_iff_exists.mp hfind
  have hqi : q.inlineData.isSome := by simpa using List.find?_some hq
  obtain ⟨idata, hidata⟩ := Option.isSome_iff_exists.mp hqi
  refine ⟨q, idata, hq, hidata, ?_⟩
  rw [handleApiResponse_eq_noBlock r ctx hb]
  unfold handleNoBlock
  have himg : imagePartFromResponse r = some q := by
    simp [imagePartFromResponse, hc, hco, hparts, hq]
  rw [himg]
  simp [hidata]

/-- Witness for claim2_success: Scenario B, an inline png part next to
finishReason SAFETY still yields the data URL. -/
theorem claim2_success_witness :
    ∃ q idata,
      ([⟨none⟩, ⟨some ⟨"image/png", "iVBORw"⟩⟩] :
          List Part).find? (fun x => x.inlineData.isSome) = some q ∧
      q.inlineData = some idata ∧
      handleApiResponse
        ⟨none, some [⟨some ⟨some [⟨none⟩, ⟨some ⟨"image/png", "iVBORw"⟩⟩]⟩, some "SAFETY"⟩],
         none⟩ "edit" =
        .success ("data:" ++ idata.mimeType ++ ";base64," ++ idata.data) :=
  claim2_success _ "edit" _ [] _ _ ⟨some ⟨"image/png", "iVBORw"⟩⟩
    (Or.inl rfl) rfl rfl rfl (by decide) (by decide)

/-- Claim C10: the image-present check accepts any inline-data part
without inspecting its media type; a non-image media type still yields
the success data URL built from it. -/
theorem claim10_mime_agnostic (r : GenerateContentResponse) (ctx : String) (idata : InlineData)
    (hb : blockReasonOf r = none ∨ blockReasonOf r = some "")
    (hi : (imagePartFromResponse r).bind Part.inlineData = some idata) :
    handleApiResponse r ctx = .success ("data:" ++ idata.mimeType ++ ";base64," ++ idata.data) := by
  rw [handleApiResponse_eq_noBlock r ctx hb]
  unfold handleNoBlock
  rw [hi]

/-- Witness for claim10_mime_agnostic: an inline part declaring
text/plain is still returned as a success data URL. -/
theorem claim10_witness :
    handleApiResponse
      ⟨none, some [⟨some ⟨some [⟨some ⟨"text/plain", "SGVsbG8="⟩⟩]⟩, some "STOP"⟩],
       none⟩ "edit" = .success "data:text/plain;base64,SGVsbG8=" :=
  claim10_mime_agnostic _ "edit" ⟨"text/plain", "SGVsbG8="⟩ (Or.inl rfl) rfl

/-- Claim C3, counterexample: a present but empty finish reason is
JS-falsy, differs from STOP, yet the classifier does not resolve to the
stopped-early failure. -/
theorem claim3_counterexample :
    blockReasonOf ⟨none, some [⟨none, some ""⟩], none⟩ = none ∧
    (imagePartFromResponse ⟨none, some [⟨none, some ""⟩], none⟩).bind Part.inlineData = none ∧
    finishReasonOf ⟨none, some [⟨none, some ""⟩], none⟩ = some "" ∧
    ("" : String) ≠ "STOP" ∧
    (handleApiResponse ⟨none, some [⟨none, some ""⟩], none⟩ "edit").isStoppedEarly = false := by
  decide

/-- Claim C3 (amended): with a falsy block reason, no inline-data part in
the first candidate, and a finish reason that is present, non-empty, and
different from STOP, the classifier resolves to the stopped-early
failure, whose message contains the finish reason string. -/
theorem claim3_stopped (r : GenerateContentResponse) (ctx fr : String)
    (hb : blockReasonOf r = none ∨ blockReasonOf r = some "")
    (hi : (imagePartFromResponse r).bind Part.inlineData = none)
    (hf : finishReasonOf r = some fr) (h1 : fr ≠ "") (h2 : fr ≠ "STOP") :
    ∃ msg, handleApiResponse r ctx = .stoppedEarly msg ∧ strContains fr msg := by
  refine ⟨"Image generation for " ++ ctx ++ " stopped unexpectedly. Reason: " ++ fr ++
    ". This often relates to safety settings.", ?_, ?_⟩
  · rw [handleApiResponse_eq_noBlock r ctx hb]
    simp [handleNoBlock, hi, handleNoImage, hf, h1, h2]
  · exact ⟨"Image generation for " ++ ctx ++ " stopped unexpectedly. Reason: ",
      ". This often relates to safety settings.", by simp [strAppend_assoc]⟩

/-- Witness for claim3_stopped: Scenario C, finishReason MAX_TOKENS with
no inline data and no block. -/
theorem claim3_stopped_witness :
    ∃ msg, handleApiResponse ⟨none, some [⟨none, some "MAX_TOKENS"⟩], none⟩ "edit" =
      .stoppedEarly msg ∧ strContains "MAX_TOKENS" msg :=
  claim3_stopped _ "edit" "MAX_TOKENS" (Or.inl rfl) rfl rfl (by decide) (by decide)

/-- Claim C4, counterexample: at Scenario D the empty-result message is
not equal to the response's free text; the text is only embedded, quoted,
inside a longer message. -/
theorem claim4_counterexample :
    handleApiResponse ⟨none, some [⟨none, some "STOP"⟩],
        some "I cannot complete this request."⟩ "edit" =
      .emptyResult "The AI model did not return an image for the edit. The model responded with text: \"I cannot complete this request.\"" ∧
    handleApiResponse ⟨none, some [⟨none, some "STOP"⟩],
        some "I cannot complete this request."⟩ "edit" ≠
      .emptyResult "I cannot complete this request." := by
  constructor
  · decide
  · decide

/-- Claim C4 (amended): with a falsy block reason, no inline-data part in
the first candidate, and an absent or STOP finish reason, the classifier
resolves to the empty-result failure; its message contains the response's
trimmed free text when that trimmed text is non-empty, and otherwise
equals the fixed generic string for the given context suggesting the
prompt be rephrased. -/
theorem claim4_empty (r : GenerateContentResponse) (ctx : String)
    (hb : blockReasonOf r = none ∨ blockReasonOf r = some "")
    (hi : (imagePartFromResponse r).bind Part.inlineData = none)
    (hf : finishReasonOf r = none ∨ finishReasonOf r = some "STOP") :
    ∃ msg, handleApiResponse r ctx = .emptyResult msg ∧
      (∀ t, r.text = some t → jsTrim t ≠ "" → strContains (jsTrim t) msg) ∧
      ((r.text.map jsTrim).getD "" = "" →
        msg = "The AI model did not return an image for the " ++ ctx ++ ". " ++
          emptyFallbackText) := by
  have hstep : handleApiResponse r ctx = .emptyResult (emptyMessageOf r ctx) := by
    rw [handleApiResponse_eq_noBlock r ctx hb]
    rcases hf with h | h <;> simp [handleNoBlock, hi, handleNoImage, h, emptyResultOf]
  refine ⟨emptyMessageOf r ctx, hstep, ?_, ?_⟩
  · intro t ht hne
    have hmsg : emptyMessageOf r ctx =
        "The AI model did not return an image for the " ++ ctx ++ ". " ++
          ("The model responded with text: \"" ++ jsTrim t ++ "\"") := by
      simp only [emptyMessageOf, ht, Option.map_some']
      rw [if_neg hne]
    refine ⟨"The AI model did not return an image for the " ++ ctx ++ ". " ++
      "The model responded with text: \"", "\"", ?_⟩
    rw [hmsg]
    simp only [strAppend_assoc]
  · intro h
    cases htext : r.text with
    | none => simp only [emptyMessageOf, htext, Option.map_none']
    | some t =>
        rw [htext] at h
        simp only [Option.map_some', Option.getD_some] at h
        simp only [emptyMessageOf, htext, Option.map_some', h, if_pos]

/-- Witness for claim4_empty: Scenario D, finishReason STOP with the
refusal text; its trimmed text appears in the message. -/
theorem claim4_empty_witness :
    ∃ msg, handleApiResponse ⟨none, some [⟨none, some "STOP"⟩],
        some "I cannot complete this request."⟩ "edit" = .emptyResult msg ∧
      (∀ t, (some "I cannot complete this request." : Option String) = some t →
        jsTrim t ≠ "" → strContains (jsTrim t) msg) ∧
      (((some "I cannot complete this request." : Option String).map jsTrim).getD "" = "" →
        msg = "The AI model did not return an image for the " ++ "edit" ++ ". " ++
          emptyFallbackText) :=
  claim4_empty _ "edit" (Or.inl rfl) rfl (Or.inr rfl)

/-- Claim C8: the classifier inspects only the first candidate; when the
first candidate has no inline-data part, an inline-data part in a later
candidate is never found, and classification falls through to the
stopped-early or empty-result branches instead of success. -/
theorem claim8_first_candidate_only (r : GenerateContentResponse) (ctx : String)
    (c : Candidate) (rest : List Candidate)
    (hb : blockReasonOf r = none ∨ blockReasonOf r = some "")
    (hc : r.candidates = some (c :: rest))
    (hfirst : candidateImagePart c = none)
    (_hlater : ∃ c2 ∈ rest, (candidateImagePart c2).isSome) :
    (handleApiResponse r ctx).isSuccess = false ∧
    ((∃ msg, handleApiResponse r ctx = .stoppedEarly msg) ∨
     (∃ msg, handleApiResponse r ctx = .emptyResult msg)) := by
  have himg : imagePartFromResponse r = none := by
    simpa [imagePartFromResponse, hc, candidateImagePart] using hfirst
  have hmain : handleApiResponse r ctx = handleNoImage r ctx := by
    rw [handleApiResponse_eq_noBlock r ctx hb]
    simp [handleNoBlock, himg]
  rw [hmain]
  constructor
  · unfold handleNoImage
    split
    · split
      · rfl
      · simp [emptyResultOf, ApiResult.isSuccess]
    · simp [emptyResultOf, ApiResult.isSuccess]
  · unfold handleNoImage
    split
    · split
      · exact Or.inl ⟨_, rfl⟩
      · exact Or.inr ⟨_, rfl⟩
    · exact Or.inr ⟨_, rfl⟩

/-- Witness for claim8_first_candidate_only: the first candidate carries
no parts while the second carries an inline png part; the result is the
empty-result failure, not success. -/
theorem claim8_witness :
    (handleApiResponse ⟨none, some [⟨none, none⟩,
        ⟨some ⟨some [⟨some ⟨"image/png", "XYZ"⟩⟩]⟩, none⟩], none⟩ "edit").isSuccess = false ∧
    ((∃ msg, handleApiResponse ⟨none, some [⟨none, none⟩,
        ⟨some ⟨some [⟨some ⟨"image/png", "XYZ"⟩⟩]⟩, none⟩], none⟩ "edit" = .stoppedEarly msg) ∨
     (∃ msg, handleApiResponse ⟨none, some [⟨none, none⟩,
        ⟨some ⟨some [⟨some ⟨"image/png", "XYZ"⟩⟩]⟩, none⟩], none⟩ "edit" = .emptyResult msg)) :=
  claim8_first_candidate_only _ "edit" _ _ (Or.inl rfl) rfl rfl (by decide)

/-- Claim C6: generateLogos fails with the fixed generic multi-output
message exactly when the generated-images array is absent or empty, and
otherwise returns one png data URL per generated image, in order. -/
theorem claim6_logos (r : GenerateImagesResponse) :
    (generateLogosResult r = .error logosEmptyMessage ↔
      r.generatedImages = none ∨ r.generatedImages = some []) ∧
    ∀ imgs, r.generatedImages = some imgs → imgs ≠ [] →
      generateLogosResult r =
        .ok (imgs.map fun img => "data:image/png;base64," ++ img.image.imageBytes) := by
  cases hgen : r.generatedImages with
  | none => simp [generateLogosResult, hgen]
  | some imgs =>
      cases imgs with
      | nil => simp [generateLogosResult, hgen]
      | cons a l =>
          refine ⟨?_, ?_⟩
          · simp [generateLogosResult, hgen]
          · intro imgs' h h'
            obtain rfl : a :: l = imgs' := Option.some.inj h
            simp [generateLogosResult, hgen]

/-- Witness for claim6_logos: two generated images map to two png data
URLs in order. -/
theorem claim6_logos_witness :
    generateLogosResult ⟨some [⟨⟨"AAAA"⟩⟩, ⟨⟨"BBBB"⟩⟩]⟩ =
      .ok ["data:image/png;base64,AAAA", "data:image/png;base64,BBBB"] :=
  (claim6_logos ⟨some [⟨⟨"AAAA"⟩⟩, ⟨⟨"BBBB"⟩⟩]⟩).2 [⟨⟨"AAAA"⟩⟩, ⟨⟨"BBBB"⟩⟩] rfl (by decide)

/-- Claim C7: fileToPart fails with the malformed-encoding error exactly
when splitting on commas yields fewer than two segments, fails with the
media-type error when the regex capture is absent or empty, and succeeds
with an encoded part on every well-formed input. -/
theorem claim7_fileToPart (s : String) :
    ((splitComma s.toList).length < 2 → fileToPartCore s = .error "Invalid data URL") ∧
    (2 ≤ (splitComma s.toList).length →
      (mimeCapture ((splitComma s.toList).getD 0 []) = none ∨
       mimeCapture ((splitComma s.toList).getD 0 []) = some []) →
      fileToPartCore s = .error "Could not parse MIME type from data URL") ∧
    (∀ cap, 2 ≤ (splitComma s.toList).length →
      mimeCapture ((splitComma s.toList).getD 0 []) = some cap → cap ≠ [] →
      fileToPartCore s = .ok ⟨some ⟨cap.asString, ((splitComma s.toList).getD 1 []).asString⟩⟩) := by
  exact ⟨fun h => fileToPartCore_short s h,
    fun h hm => fileToPartCore_noMime s h hm,
    fun cap h hm hne => fileToPartCore_ok s cap h hm hne⟩

/-- Witness for claim7_fileToPart: a comma-free input is malformed, a
capture-free first segment loses the media type, and a well-formed png
data URL round-trips into an encoded part. -/
theorem claim7_witness :
    fileToPartCore "nocomma" = .error "Invalid data URL" ∧
    fileToPartCore "data,xyz" = .error "Could not parse MIME type from data URL" ∧
    fileToPartCore "data:image/png;base64,abc" =
      .ok ⟨some ⟨"image/png", "abc"⟩⟩ :=
  ⟨(claim7_fileToPart "nocomma").1 (by decide),
   (claim7_fileToPart "data,xyz").2.1 (by decide) (Or.inl (by decide)),
   (claim7_fileToPart "data:image/png;base64,abc").2.2 "image/png".toList
     (by decide) (by decide) (by decide)⟩

/-- Claim C5: the encode-then-extract round trip of fileToPart is
lossless on every well-formed read: for a media type that is non-empty
and free of semicolons and commas, and a base64 payload free of commas,
parsing the data URL produced by the read recovers both exactly. -/
theorem claim5_roundtrip (m d : String) (hm : m ≠ "")
    (hmc : ∀ c ∈ m.toList, c ≠ ';' ∧ c ≠ ',')
    (hd : ',' ∉ d.toList) :
    fileToPartCore (readAsDataUrl m d) = .ok ⟨some ⟨m, d⟩⟩ := by
  have heq : (readAsDataUrl m d).toList
      = ("data:".toList ++ m.toList ++ ";base64".toList) ++ ',' :: d.toList := by
    have h1 : (readAsDataUrl m d).toList
        = "data:".toList ++ m.toList ++ ";base64,".toList ++ d.toList := rfl
    have h2 : (";base64," : String).toList = ";base64".toList ++ [','] := rfl
    rw [h1, h2]
    simp [List.append_assoc]
  have hnc : ',' ∉ ("data:".toList ++ m.toList ++ ";base64".toList) := by
    intro hmem
    rcases List.mem_append.mp hmem with hmem | hmem
    · rcases List.mem_append.mp hmem with hmem | hmem
      · revert hmem
        decide
      · exact (hmc _ hmem).2 rfl
    · revert hmem
      decide
  have key1 : splitComma (readAsDataUrl m d).toList
      = [("data:".toList ++ m.toList ++ ";base64".toList), d.toList] := by
    rw [heq, splitComma_append _ _ hnc, splitComma_no_comma _ hd]
  have harr0 : "data:".toList ++ m.toList ++ ";base64".toList
      = ['d', 'a', 't', 'a'] ++ ':' :: (m.toList ++ ';' :: "base64".toList) := by
    have h1 : ("data:" : String).toList = ['d', 'a', 't', 'a'] ++ [':'] := rfl
    have h2 : (";base64" : String).toList = ';' :: "base64".toList := rfl
    rw [h1, h2]
    simp [List.append_assoc]
  have hsemi : ';' ∉ m.toList := fun h => (hmc _ h).1 rfl
  have hmime : mimeCapture ("data:".toList ++ m.toList ++ ";base64".toList) = some m.toList := by
    rw [harr0]
    exact mimeCapture_append _ _ _ (by decide) (takeUntilSemi_append _ _ hsemi)
  have hlen : 2 ≤ (splitComma (readAsDataUrl m d).toList).length := by
    rw [key1]
    simp
  have hmime2 : mimeCapture ((splitComma (readAsDataUrl m d).toList).getD 0 [])
      = some m.toList := by
    rw [key1]
    simpa using hmime
  have hne : m.toList ≠ [] := fun h => hm (String.toList_inj.mp h)
  rw [fileToPartCore_ok (readAsDataUrl m d) m.toList hlen hmime2 hne, key1]
  rfl

/-- Witness for claim5_roundtrip: an image/png asset with payload
iVBORw0KGgo= round-trips exactly. -/
theorem claim5_roundtrip_witness :
    fileToPartCore (readAsDataUrl "image/png" "iVBORw0KGgo=") =
      .ok ⟨some ⟨"image/png", "iVBORw0KGgo="⟩⟩ :=
  claim5_roundtrip "image/png" "iVBORw0KGgo=" (by decide) (by decide) (by decide)

end Gemini
